import Mathlib

/-!
# Verification of the nerd-society booking system's core logic

A shallow embedding of the slot-availability / pricing / booking-lifecycle
logic of the repository.  JavaScript strings are modelled as `List Char`
(`Str`); JavaScript numbers that can be `NaN` are modelled as `Option`
values, with `none` playing the role of `NaN` (any arithmetic or comparison
involving `NaN` propagates / returns false, as in JS).

Sources embedded here:
* `src/lib/booking-utils.ts` (`parseTimeToMinutes`, `addMinutesToTime`,
  `calculateDuration`, `isSlotAvailable`, `getBookedSlots`,
  `getBookingDateTime`, `OPERATING_HOURS`)
* `src/components/booking/BookingFormV2.tsx` (`isRangeOverlapping`)
* `src/app/api/admin/bookings/[id]/status/route.ts` (`POST`)
* `src/app/api/booking/create/route.ts` (`POST`, `roomTypeToServiceType`)
* `src/components/booking/BookingWizardV2.tsx` (step handlers)
* `src/lib/staffPermissions.ts` (`PERMISSION_ROUTE_MAP`,
  `isRouteAllowedForStaff`)
* the admin calendar component (`statusLabels`)
-/

namespace Nerd

/-- JavaScript strings, modelled as lists of characters. -/
abbrev Str := List Char

/-- `c` is one of the characters '0'..'9' (code points 48..57). -/
def isDigit (c : Char) : Bool := 48 ≤ c.toNat && c.toNat ≤ 57

/-- Numeric value of a digit character. -/
def digitVal (c : Char) : Nat := c.toNat - 48

/-- Value of a string of decimal digits. -/
def decimalValue (l : Str) : Nat := l.foldl (fun n c => 10 * n + digitVal c) 0

/-- Model of the JS `Number(...)` conversion on the strings this code feeds
it: a string of digits yields its decimal value, the empty string yields 0
(as `Number('')` does), and anything else yields `NaN` (`none`). -/
def jsNumber (l : Str) : Option Nat :=
  if l.all isDigit then some (decimalValue l) else none

/-- Helper for `splitOnChar`: accumulates the current chunk in reverse. -/
def splitOnAux (c : Char) : Str → Str → List Str
  | [], acc => [acc.reverse]
  | x :: xs, acc =>
    if x = c then acc.reverse :: splitOnAux c xs []
    else splitOnAux c xs (x :: acc)

/-- Model of JS `String.prototype.split(c)` for a one-character separator. -/
def splitOnChar (c : Char) (l : Str) : List Str := splitOnAux c l []

/-- `parseTimeToMinutes` from `src/lib/booking-utils.ts`:
`time.split(':').map(Number)` destructured into `hours` and `minutes`, then
`hours * 60 + minutes`.  If a component is missing or not numeric the JS
result is `NaN`, here `none`. -/
def parseTimeToMinutes (time : Str) : Option Nat :=
  match (splitOnChar ':' time).map jsNumber with
  | some hours :: some minutes :: _ => some (hours * 60 + minutes)
  | _ => none

/-- JS `n.toString().padStart(2, '0')` for a natural number `n`. -/
def pad2 (n : Nat) : Str :=
  let s := (Nat.repr n).data
  List.replicate (2 - s.length) '0' ++ s

/-- `addMinutesToTime` from `src/lib/booking-utils.ts`: add minutes to a
time string and re-render as zero-padded `HH:MM` (hours wrap modulo 24).
On an unparseable time JS renders the string `NaN:NaN`. -/
def addMinutesToTime (time : Str) (minutesToAdd : Nat) : Str :=
  match parseTimeToMinutes time with
  | none => "NaN:NaN".data
  | some v =>
    let totalMinutes := v + minutesToAdd
    let hours := totalMinutes / 60 % 24
    let minutes := totalMinutes % 60
    pad2 hours ++ ':' :: pad2 minutes

/-- `calculateDuration` from `src/lib/booking-utils.ts`: difference of the
two parsed times in minutes (`NaN`, i.e. `none`, if either is unparseable;
the JS value may be negative, hence `Int`). -/
def calculateDuration (startTime endTime : Str) : Option Int :=
  match parseTimeToMinutes startTime, parseTimeToMinutes endTime with
  | some s, some e => some ((e : Int) - (s : Int))
  | _, _ => none

/-- A well-formed zero-padded `HH:MM` time string: five characters, a colon
in the middle, both components digits, `0 ≤ HH ≤ 23`, `0 ≤ MM ≤ 59`. -/
def wellFormedTime : Str → Bool
  | [h1, h2, c, m1, m2] =>
    isDigit h1 && isDigit h2 && c == ':' && isDigit m1 && isDigit m2 &&
      decide (10 * digitVal h1 + digitVal h2 ≤ 23) &&
      decide (10 * digitVal m1 + digitVal m2 ≤ 59)
  | _ => false

/-! ## Basic lemmas about time-string parsing -/

theorem isDigit_ne_colon {c : Char} (h : isDigit c = true) : ¬ c = ':' := by
  intro hc
  subst hc
  simp [isDigit] at h

theorem splitOnChar_time (a b c d : Char) (ha : ¬ a = ':') (hb : ¬ b = ':')
    (hc : ¬ c = ':') (hd : ¬ d = ':') :
    splitOnChar ':' [a, b, ':', c, d] = [[a, b], [c, d]] := by
  simp [splitOnChar, splitOnAux, ha, hb, hc, hd]

theorem jsNumber_two_digits (a b : Char) (ha : isDigit a = true)
    (hb : isDigit b = true) :
    jsNumber [a, b] = some (10 * digitVal a + digitVal b) := by
  simp [jsNumber, decimalValue, ha, hb]

theorem parseTimeToMinutes_five (a b c d : Char) (ha : isDigit a = true)
    (hb : isDigit b = true) (hc : isDigit c = true) (hd : isDigit d = true) :
    parseTimeToMinutes [a, b, ':', c, d] =
      some ((10 * digitVal a + digitVal b) * 60 + (10 * digitVal c + digitVal d)) := by
  rw [parseTimeToMinutes,
    splitOnChar_time a b c d (isDigit_ne_colon ha) (isDigit_ne_colon hb)
      (isDigit_ne_colon hc) (isDigit_ne_colon hd)]
  rw [List.map_cons, List.map_cons, List.map_nil,
    jsNumber_two_digits a b ha hb, jsNumber_two_digits c d hc hd]

/-- For `n < 100`, `pad2 n` is two digit characters whose decimal value is
`n`. -/
theorem pad2_spec : ∀ n < 100,
    (pad2 n).length = 2 ∧ (pad2 n).all isDigit = true ∧ decimalValue (pad2 n) = n := by
  decide

theorem pad2_shape (n : Nat) (h : n < 100) :
    ∃ a b, pad2 n = [a, b] ∧ isDigit a = true ∧ isDigit b = true ∧
      10 * digitVal a + digitVal b = n := by
  obtain ⟨hlen, hdig, hval⟩ := pad2_spec n h
  obtain ⟨a, b, hab⟩ := List.length_eq_two.mp hlen
  refine ⟨a, b, hab, ?_, ?_, ?_⟩
  · rw [hab] at hdig; simp [List.all] at hdig; exact hdig.1
  · rw [hab] at hdig; simp [List.all] at hdig; exact hdig.2
  · rw [hab] at hval; simp [decimalValue] at hval; omega

/-- Destructuring a well-formed time string. -/
theorem wellFormedTime_shape (t : Str) (h : wellFormedTime t = true) :
    ∃ h1 h2 m1 m2, t = [h1, h2, ':', m1, m2] ∧
      isDigit h1 = true ∧ isDigit h2 = true ∧ isDigit m1 = true ∧ isDigit m2 = true ∧
      10 * digitVal h1 + digitVal h2 ≤ 23 ∧ 10 * digitVal m1 + digitVal m2 ≤ 59 := by
  match t with
  | [h1, h2, c, m1, m2] =>
    simp only [wellFormedTime, Bool.and_eq_true, beq_iff_eq, decide_eq_true_eq] at h
    obtain ⟨⟨⟨⟨⟨⟨hd1, hd2⟩, hc⟩, hm1⟩, hm2⟩, hb1⟩, hb2⟩ := h
    exact ⟨h1, h2, m1, m2, by rw [hc], hd1, hd2, hm1, hm2, hb1, hb2⟩
  | [] => simp [wellFormedTime] at h
  | [_] => simp [wellFormedTime] at h
  | [_, _] => simp [wellFormedTime] at h
  | [_, _, _] => simp [wellFormedTime] at h
  | [_, _, _, _] => simp [wellFormedTime] at h
  | _ :: _ :: _ :: _ :: _ :: _ :: _ => simp [wellFormedTime] at h

theorem parse_of_wellFormed (t : Str) (h : wellFormedTime t = true) :
    ∃ v, parseTimeToMinutes t = some v ∧ v < 1440 := by
  obtain ⟨h1, h2, m1, m2, ht, hd1, hd2, hm1, hm2, hb1, hb2⟩ := wellFormedTime_shape t h
  subst ht
  refine ⟨_, parseTimeToMinutes_five h1 h2 m1 m2 hd1 hd2 hm1 hm2, ?_⟩
  omega

theorem addMinutesToTime_spec (t : Str) (m v : Nat)
    (hv : parseTimeToMinutes t = some v) (hm : v + m < 1440) :
    parseTimeToMinutes (addMinutesToTime t m) = some (v + m) ∧
      wellFormedTime (addMinutesToTime t m) = true := by
  have hdiv : (v + m) / 60 < 24 := by omega
  have hmod : (v + m) / 60 % 24 = (v + m) / 60 := Nat.mod_eq_of_lt hdiv
  have hres : addMinutesToTime t m = pad2 ((v + m) / 60) ++ ':' :: pad2 ((v + m) % 60) := by
    rw [addMinutesToTime, hv]
    simp only [hmod]
  obtain ⟨a, b, hab, hda, hdb, hvala⟩ := pad2_shape ((v + m) / 60) (by omega)
  obtain ⟨c, d, hcd, hdc, hdd, hvalc⟩ := pad2_shape ((v + m) % 60) (by omega)
  rw [hres, hab, hcd]
  constructor
  · rw [List.cons_append, List.cons_append, List.nil_append,
      parseTimeToMinutes_five a b c d hda hdb hdc hdd, hvala, hvalc]
    have : (v + m) / 60 * 60 + (v + m) % 60 = v + m := by omega
    rw [this]
  · simp only [List.cons_append, List.nil_append, wellFormedTime, hda, hdb, hdc, hdd,
      hvala, hvalc]
    simp only [Bool.and_true, Bool.true_and, beq_self_eq_true, Bool.and_self,
      Bool.and_eq_true, decide_eq_true_eq]
    omega

/-- C10: for every well-formed zero-padded `HH:MM` time string `t` and every
natural `m` with `parseTimeToMinutes t + m < 1440`, the round trip
`calculateDuration t (addMinutesToTime t m) = m` holds and
`addMinutesToTime t m` is again a well-formed zero-padded `HH:MM` string. -/
theorem calculateDuration_addMinutesToTime_roundTrip (t : Str) (m v : Nat)
    (hwf : wellFormedTime t = true)
    (hv : parseTimeToMinutes t = some v)
    (hm : v + m < 1440) :
    calculateDuration t (addMinutesToTime t m) = some (m : Int) ∧
      wellFormedTime (addMinutesToTime t m) = true := by
  obtain ⟨hparse, hwf2⟩ := addMinutesToTime_spec t m v hv hm
  refine ⟨?_, hwf2⟩
  have hcast : ((v + m : Nat) : Int) - (v : Int) = (m : Int) := by push_cast; ring
  rw [calculateDuration, hv, hparse]
  show some (((v + m : Nat) : Int) - (v : Int)) = some (m : Int)
  rw [hcast]

/-- Witness for C10 at `t = "08:30"`, `m = 90`. -/
theorem calculateDuration_addMinutesToTime_roundTrip_witness :
    wellFormedTime "08:30".data = true ∧
      parseTimeToMinutes "08:30".data = some 510 ∧ 510 + 90 < 1440 ∧
      (calculateDuration "08:30".data (addMinutesToTime "08:30".data 90) = some (90 : Int) ∧
        wellFormedTime (addMinutesToTime "08:30".data 90) = true) :=
  ⟨by decide, by decide, by decide,
    calculateDuration_addMinutesToTime_roundTrip "08:30".data 90 510
      (by decide) (by decide) (by decide)⟩

/-! ## Lexicographic comparison of JS strings

JS `<`, `<=` on strings and the database's `lt/lte/gt/gte` on string
columns compare code units lexicographically. -/

/-- JS `s < t` on strings: lexicographic comparison of code units. -/
def lexLt : Str → Str → Bool
  | [], [] => false
  | [], _ :: _ => true
  | _ :: _, [] => false
  | a :: as, b :: bs =>
    if a.toNat < b.toNat then true
    else if b.toNat < a.toNat then false
    else lexLt as bs

/-- JS `s <= t` on strings (equivalently the database's `lte`): the
negation of `t < s` in the total lexicographic order. -/
def lexLe (s t : Str) : Bool := !lexLt t s

/-- On well-formed `HH:MM` strings, lexicographic comparison agrees with
comparison of the parsed minute values (this is what zero padding buys). -/
theorem lexLt_val (s t : Str) (vs vt : Nat)
    (hs : wellFormedTime s = true) (ht : wellFormedTime t = true)
    (hvs : parseTimeToMinutes s = some vs) (hvt : parseTimeToMinutes t = some vt) :
    lexLt s t = decide (vs < vt) := by
  obtain ⟨a1, a2, b1, b2, hsEq, ha1, ha2, hb1, hb2, hsb1, hsb2⟩ := wellFormedTime_shape s hs
  obtain ⟨c1, c2, d1, d2, htEq, hc1, hc2, hd1, hd2, htb1, htb2⟩ := wellFormedTime_shape t ht
  subst hsEq
  subst htEq
  rw [parseTimeToMinutes_five a1 a2 b1 b2 ha1 ha2 hb1 hb2] at hvs
  rw [parseTimeToMinutes_five c1 c2 d1 d2 hc1 hc2 hd1 hd2] at hvt
  injection hvs with hvs
  injection hvt with hvt
  simp only [isDigit, Bool.and_eq_true, decide_eq_true_eq] at ha1 ha2 hb1 hb2 hc1 hc2 hd1 hd2
  subst hvs
  subst hvt
  simp only [digitVal] at hsb1 hsb2 htb1 htb2 ⊢
  simp only [lexLt]
  split_ifs <;>
    first
      | exact (decide_eq_true (by omega)).symm
      | exact (decide_eq_false (by omega)).symm

theorem lexLe_val (s t : Str) (vs vt : Nat)
    (hs : wellFormedTime s = true) (ht : wellFormedTime t = true)
    (hvs : parseTimeToMinutes s = some vs) (hvt : parseTimeToMinutes t = some vt) :
    lexLe s t = decide (vs ≤ vt) := by
  rw [lexLe, lexLt_val t s vt vs ht hs hvt hvs, ← decide_not]
  exact decide_eq_decide.mpr (by omega)

/-! ## The booking data model -/

/-- The booking status enum of the schema. -/
inductive BookingStatus where
  | PENDING | CONFIRMED | IN_PROGRESS | COMPLETED | CANCELLED | NO_SHOW
deriving DecidableEq

/-- The room type enum of the schema. -/
inductive RoomType where
  | MEETING_LONG | MEETING_ROUND | POD_MONO | POD_MULTI
deriving DecidableEq

/-- The service type enum of the schema. -/
inductive ServiceType where
  | MEETING | POD_MONO | POD_MULTI
deriving DecidableEq

/-- The deposit status enum of the schema. -/
inductive DepositStatus where
  | PENDING | PAID_ONLINE | PAID_CASH | WAIVED
deriving DecidableEq

/-- The payment status enum of the schema. -/
inductive PaymentStatus where
  | PENDING | PAID | FAILED | REFUNDED
deriving DecidableEq

/-- A booking row, with its joined room's type.  `date` is the booking
day's midnight as minutes since the epoch; `Option Int` fields are
nullable columns. -/
structure Booking where
  roomId : Str
  locationId : Str
  date : Int
  startTime : Str
  endTime : Str
  status : BookingStatus
  guests : Int
  roomType : RoomType
  actualStartTime : Option Int
  actualEndTime : Option Int
  estimatedAmount : Int
  depositAmount : Int
  depositStatus : DepositStatus
  actualAmount : Option Int
  remainingAmount : Option Int
  nerdCoinIssued : Int
  nerdCoinIssuedAt : Option Int
deriving DecidableEq

/-- The status filter `status: { notIn: ['CANCELLED', 'NO_SHOW'] }` used by
both `isSlotAvailable` and `getBookedSlots`. -/
def statusConsidered (b : Booking) : Bool :=
  !(b.status == .CANCELLED || b.status == .NO_SHOW)

/-- The three-case `OR` of the `findFirst` in `isSlotAvailable`
(`src/lib/booking-utils.ts`), for an existing booking `b` against a new
slot `[startTime, endTime)`:
1. `b.startTime ≤ startTime ∧ startTime < b.endTime`;
2. `b.startTime < endTime ∧ endTime ≤ b.endTime`;
3. `startTime ≤ b.startTime ∧ b.endTime ≤ endTime`. -/
def conflictCondition (startTime endTime : Str) (b : Booking) : Bool :=
  (lexLe b.startTime startTime && lexLt startTime b.endTime) ||
  (lexLt b.startTime endTime && lexLe endTime b.endTime) ||
  (lexLe startTime b.startTime && lexLe b.endTime endTime)

/-- `isSlotAvailable` from `src/lib/booking-utils.ts`: true iff the
`findFirst` for a conflicting booking on the same room and (normalized)
date finds nothing.  The table is modelled as a list of rows; `date`
equality models the query's exact-match on the normalized midnight date. -/
def isSlotAvailable (db : List Booking) (roomId : Str) (date : Int)
    (startTime endTime : Str) : Bool :=
  !(db.any fun b =>
      b.roomId == roomId && b.date == date && statusConsidered b &&
        conflictCondition startTime endTime b)

/-- `getBookedSlots` from `src/lib/booking-utils.ts`: the
`(startTime, endTime)` pairs of non-cancelled, non-no-show bookings of the
room on the day, ordered by `startTime` ascending. -/
def getBookedSlots (db : List Booking) (roomId : Str) (date : Int) :
    List (Str × Str) :=
  ((db.filter fun b => b.roomId == roomId && b.date == date && statusConsidered b).map
    fun b => (b.startTime, b.endTime)).mergeSort fun a b => lexLe a.1 b.1

/-- `isRangeOverlapping` from `BookingFormV2.tsx`: the standard overlap
condition `A.start < B.end AND A.end > B.start` against each booked slot. -/
def isRangeOverlapping (startTime endTime : Str) (bookedSlots : List (Str × Str)) : Bool :=
  if startTime.isEmpty || endTime.isEmpty then false
  else bookedSlots.any fun slot => lexLt startTime slot.2 && lexLt slot.1 endTime

/-- The standard overlap condition for one existing booking, as used by
`isRangeOverlapping`: `newStart < b.end ∧ newEnd > b.start`. -/
def overlapCondition (startTime endTime : Str) (b : Booking) : Bool :=
  lexLt startTime b.endTime && lexLt b.startTime endTime

theorem conflictCondition_eq_overlapCondition (s e : Str) (b : Booking)
    (vs ve vbs vbe : Nat)
    (hs : wellFormedTime s = true) (he : wellFormedTime e = true)
    (hbs : wellFormedTime b.startTime = true) (hbe : wellFormedTime b.endTime = true)
    (hvs : parseTimeToMinutes s = some vs) (hve : parseTimeToMinutes e = some ve)
    (hvbs : parseTimeToMinutes b.startTime = some vbs)
    (hvbe : parseTimeToMinutes b.endTime = some vbe)
    (hse : vs < ve) (hbsbe : vbs < vbe) :
    conflictCondition s e b = overlapCondition s e b := by
  rw [conflictCondition, overlapCondition,
    lexLe_val b.startTime s vbs vs hbs hs hvbs hvs,
    lexLt_val s b.endTime vs vbe hs hbe hvs hvbe,
    lexLt_val b.startTime e vbs ve hbs he hvbs hve,
    lexLe_val e b.endTime ve vbe he hbe hve hvbe,
    lexLe_val s b.startTime vs vbs hs hbs hvs hvbs,
    lexLe_val b.endTime e vbe ve hbe he hvbe hve,
    ← Bool.decide_and, ← Bool.decide_and, ← Bool.decide_and, ← Bool.decide_and,
    ← Bool.decide_or, ← Bool.decide_or]
  exact decide_eq_decide.mpr (by omega)

/-- C1: for nonempty well-formed `HH:MM` intervals, the three-case
disjunction used by `isSlotAvailable` holds iff the standard overlap
condition used by `isRangeOverlapping` holds; hence `isSlotAvailable`
returns true exactly when no considered booking (same room, same date,
status outside CANCELLED/NO_SHOW) overlaps the requested range. -/
theorem isSlotAvailable_overlap_equiv :
    (∀ (s e : Str) (b : Booking) (vs ve vbs vbe : Nat),
      wellFormedTime s = true → wellFormedTime e = true →
      wellFormedTime b.startTime = true → wellFormedTime b.endTime = true →
      parseTimeToMinutes s = some vs → parseTimeToMinutes e = some ve →
      parseTimeToMinutes b.startTime = some vbs →
      parseTimeToMinutes b.endTime = some vbe →
      vs < ve → vbs < vbe →
      conflictCondition s e b = overlapCondition s e b) ∧
    (∀ (db : List Booking) (roomId : Str) (date : Int) (s e : Str),
      wellFormedTime s = true → wellFormedTime e = true → lexLt s e = true →
      (∀ b ∈ db, b.roomId = roomId → b.date = date → statusConsidered b = true →
        wellFormedTime b.startTime = true ∧ wellFormedTime b.endTime = true ∧
          lexLt b.startTime b.endTime = true) →
      (isSlotAvailable db roomId date s e = true ↔
        ∀ b ∈ db, b.roomId = roomId → b.date = date → statusConsidered b = true →
          overlapCondition s e b = false)) := by
  constructor
  · exact fun s e b vs ve vbs vbe hs he hbs hbe hvs hve hvbs hvbe hse hbsbe =>
      conflictCondition_eq_overlapCondition s e b vs ve vbs vbe hs he hbs hbe
        hvs hve hvbs hvbe hse hbsbe
  · intro db roomId date s e hs he hlt hdb
    obtain ⟨vs, hvs, _⟩ := parse_of_wellFormed s hs
    obtain ⟨ve, hve, _⟩ := parse_of_wellFormed e he
    have hse : vs < ve := by
      have := lexLt_val s e vs ve hs he hvs hve
      rw [hlt] at this
      exact of_decide_eq_true this.symm
    rw [isSlotAvailable, Bool.not_eq_true', List.any_eq_false]
    constructor
    · intro h b hb hroom hdate hstatus
      have hfalse := h b hb
      obtain ⟨hbs, hbe, hblt⟩ := hdb b hb hroom hdate hstatus
      obtain ⟨vbs, hvbs, _⟩ := parse_of_wellFormed b.startTime hbs
      obtain ⟨vbe, hvbe, _⟩ := parse_of_wellFormed b.endTime hbe
      have hbsbe : vbs < vbe := by
        have := lexLt_val b.startTime b.endTime vbs vbe hbs hbe hvbs hvbe
        rw [hblt] at this
        exact of_decide_eq_true this.symm
      rw [← conflictCondition_eq_overlapCondition s e b vs ve vbs vbe hs he hbs hbe
        hvs hve hvbs hvbe hse hbsbe]
      cases hcc : conflictCondition s e b
      · rfl
      · exfalso
        rw [hroom, hdate] at hfalse
        simp [hstatus, hcc] at hfalse
    · intro h b hb
      by_cases hroom : b.roomId = roomId
      · by_cases hdate : b.date = date
        · by_cases hstatus : statusConsidered b = true
          · obtain ⟨hbs, hbe, hblt⟩ := hdb b hb hroom hdate hstatus
            obtain ⟨vbs, hvbs, _⟩ := parse_of_wellFormed b.startTime hbs
            obtain ⟨vbe, hvbe, _⟩ := parse_of_wellFormed b.endTime hbe
            have hbsbe : vbs < vbe := by
              have := lexLt_val b.startTime b.endTime vbs vbe hbs hbe hvbs hvbe
              rw [hblt] at this
              exact of_decide_eq_true this.symm
            have hover := h b hb hroom hdate hstatus
            rw [conflictCondition_eq_overlapCondition s e b vs ve vbs vbe hs he hbs hbe
              hvs hve hvbs hvbe hse hbsbe, hover]
            simp
          · simp [Bool.eq_false_iff.mpr hstatus]
        · simp [hdate]
      · simp [hroom]

/-- Witness for C1 at a one-booking table: room "r1", date 0, existing
booking 09:00–10:00, requested slot 09:30–10:30. -/
theorem isSlotAvailable_overlap_equiv_witness :
    conflictCondition "09:30".data "10:30".data
        { roomId := "r1".data, locationId := "l1".data, date := 0,
          startTime := "09:00".data, endTime := "10:00".data,
          status := .CONFIRMED, guests := 1, roomType := .POD_MONO,
          actualStartTime := none, actualEndTime := none,
          estimatedAmount := 0, depositAmount := 0, depositStatus := .PENDING,
          actualAmount := none, remainingAmount := none,
          nerdCoinIssued := 0, nerdCoinIssuedAt := none } =
      overlapCondition "09:30".data "10:30".data
        { roomId := "r1".data, locationId := "l1".data, date := 0,
          startTime := "09:00".data, endTime := "10:00".data,
          status := .CONFIRMED, guests := 1, roomType := .POD_MONO,
          actualStartTime := none, actualEndTime := none,
          estimatedAmount := 0, depositAmount := 0, depositStatus := .PENDING,
          actualAmount := none, remainingAmount := none,
          nerdCoinIssued := 0, nerdCoinIssuedAt := none } :=
  isSlotAvailable_overlap_equiv.1 "09:30".data "10:30".data _ 570 630 540 600
    (by decide) (by decide) (by decide) (by decide) (by decide) (by decide)
    (by decide) (by decide) (by decide) (by decide)

/-- C8: bookings with status CANCELLED or NO_SHOW never block a slot:
removing them from the table changes neither `isSlotAvailable` nor
`getBookedSlots`. -/
theorem cancelled_noShow_never_considered :
    ∀ (db : List Booking) (roomId : Str) (date : Int) (s e : Str),
      isSlotAvailable (db.filter statusConsidered) roomId date s e =
          isSlotAvailable db roomId date s e ∧
        getBookedSlots (db.filter statusConsidered) roomId date =
          getBookedSlots db roomId date := by
  intro db roomId date s e
  constructor
  · rw [isSlotAvailable, isSlotAvailable, List.any_filter]
    have hfg : (fun a : Booking => statusConsidered a &&
          (a.roomId == roomId && a.date == date && statusConsidered a &&
            conflictCondition s e a)) =
        fun b : Booking => b.roomId == roomId && b.date == date &&
          statusConsidered b && conflictCondition s e b := by
      funext b
      cases hst : statusConsidered b <;> simp [hst]
    rw [hfg]
  · rw [getBookedSlots, getBookedSlots, List.filter_filter]
    congr 2
    apply List.filter_congr
    intro b _
    cases hst : statusConsidered b <;> simp [hst]

/-! ## The admin booking-status route

POST `/api/admin/bookings/[id]/status` with body `{ action }`, where
`action` is one of `'CHECK_IN' | 'CHECK_OUT' | 'CANCEL'`.  The pricing
library `src/lib/pricing.ts` (`calculateSurcharge`, `getNerdCoinReward`)
is not part of this source tree, so the route model is parametric in those
two functions. -/

/-- `roomTypeToServiceType` from the create route.  The CHECK_IN and
CHECK_OUT branches of the status route compute the same mapping with
chained `if`s starting from the default `'MEETING'`. -/
def roomTypeToServiceType : RoomType → ServiceType
  | .MEETING_LONG => .MEETING
  | .MEETING_ROUND => .MEETING
  | .POD_MONO => .POD_MONO
  | .POD_MULTI => .POD_MULTI

/-- `getBookingDateTime` from `src/lib/booking-utils.ts`: combine a day's
midnight with an `HH:MM` string (`setHours`).  `none` models the JS
Invalid Date produced when the time string does not parse; the embedding
measures date-times in minutes. -/
def getBookingDateTime (date : Int) (time : Str) : Option Int :=
  (parseTimeToMinutes time).map fun (v : Nat) => date + (v : Int)

/-- NaN-propagating subtraction, modelling `differenceInMinutes` on
possibly invalid dates (both arguments in minutes). -/
def jsSub (a b : Option Int) : Option Int :=
  match a, b with
  | some x, some y => some (x - y)
  | _, _ => none

/-- POST `/api/admin/bookings/[id]/status` from
`src/app/api/admin/bookings/[id]/status/route.ts`, starting from the
loaded booking row (authentication, the missing-id and not-found responses
and JSON parsing are upstream of the modelled logic).  `Except.error c`
models the JSON error response with HTTP status `c`.  `surcharge` receives
the service type, the actual duration `differenceInMinutes(now,
scheduledStart)`, the scheduled duration, and the guest count; the source's
unused `actualStart` local is omitted. -/
def statusPost (surcharge : ServiceType → Option Int → Option Int → Int → Int)
    (nerdReward : ServiceType → Int) (now : Int) (b : Booking) (action : Str) :
    Except Nat Booking :=
  if action = "CHECK_IN".data then
    if b.status ≠ .PENDING ∧ b.status ≠ .CONFIRMED then .error 400
    else
      let nerdCoins := nerdReward (roomTypeToServiceType b.roomType)
      .ok { b with status := .IN_PROGRESS, actualStartTime := some now,
                   nerdCoinIssued := nerdCoins,
                   nerdCoinIssuedAt := if nerdCoins > 0 then some now else none }
  else if action = "CHECK_OUT".data then
    if b.status ≠ .IN_PROGRESS then .error 400
    else
      let scheduledStart := getBookingDateTime b.date b.startTime
      let scheduledEnd := getBookingDateTime b.date b.endTime
      let scheduledDuration := jsSub scheduledEnd scheduledStart
      let actualDuration := jsSub (some now) scheduledStart
      let surchargeAmount := surcharge (roomTypeToServiceType b.roomType)
        actualDuration scheduledDuration b.guests
      let actualAmount := b.estimatedAmount + surchargeAmount
      let isPaid := b.depositStatus = .PAID_ONLINE ∨ b.depositStatus = .PAID_CASH
      let paidDeposit := if isPaid then b.depositAmount else 0
      .ok { b with status := .COMPLETED, actualEndTime := some now,
                   actualAmount := some actualAmount,
                   remainingAmount := some (actualAmount - paidDeposit) }
  else if action = "CANCEL".data then
    .ok { b with status := .CANCELLED }
  else .error 400

/-- The terminal statuses of the booking state machine. -/
def isTerminalStatus (s : BookingStatus) : Bool :=
  s == .COMPLETED || s == .CANCELLED || s == .NO_SHOW

/-- Rank along the machine PENDING → CONFIRMED → IN_PROGRESS →
COMPLETED / CANCELLED / NO_SHOW. -/
def statusRank : BookingStatus → Nat
  | .PENDING => 0
  | .CONFIRMED => 1
  | .IN_PROGRESS => 2
  | .COMPLETED => 3
  | .CANCELLED => 3
  | .NO_SHOW => 3

/-- `t` lies strictly later than `s` along the status machine. -/
def machineSuccessor (s t : BookingStatus) : Bool :=
  statusRank s < statusRank t

/-- C2 as stated: every successful action moves the booking's status to a
successor in the machine, and no action changes the status of a booking
already in a terminal state. -/
def statusMachineClaim : Prop :=
  ∀ (surcharge : ServiceType → Option Int → Option Int → Int → Int)
    (nerdReward : ServiceType → Int) (now : Int) (b : Booking) (action : Str)
    (b' : Booking),
    statusPost surcharge nerdReward now b action = .ok b' →
      machineSuccessor b.status b'.status = true ∧
        (isTerminalStatus b.status = true → b'.status = b.status)

/-- A COMPLETED booking used to refute C2. -/
def completedBooking : Booking :=
  { roomId := "r1".data, locationId := "l1".data, date := 0,
    startTime := "09:00".data, endTime := "10:00".data,
    status := .COMPLETED, guests := 1, roomType := .POD_MONO,
    actualStartTime := some 540, actualEndTime := some 600,
    estimatedAmount := 100, depositAmount := 50, depositStatus := .PAID_CASH,
    actualAmount := some 100, remainingAmount := some 50,
    nerdCoinIssued := 0, nerdCoinIssuedAt := none }

/-- The COMPLETED booking with its status replaced. -/
def pendingBooking : Booking := { completedBooking with status := BookingStatus.PENDING }

/-- The COMPLETED booking with its status replaced. -/
def inProgressBooking : Booking :=
  { completedBooking with status := BookingStatus.IN_PROGRESS }

/-- C2 counterexample: the CANCEL action has no status guard, so it
succeeds on a COMPLETED booking and moves it to CANCELLED — changing a
terminal state, and not along any edge of the machine. -/
theorem statusMachineClaim_false : ¬ statusMachineClaim := by
  intro h
  have happ := h (fun _ _ _ _ => 0) (fun _ => 0) 0 completedBooking "CANCEL".data
    { completedBooking with status := .CANCELLED } rfl
  have hterm := happ.2 (by decide)
  exact absurd hterm (by decide)

/-- C2 amended: CHECK_IN and CHECK_OUT do follow forward edges of the
machine and reject terminal states (CHECK_IN: PENDING or CONFIRMED →
IN_PROGRESS; CHECK_OUT: IN_PROGRESS → COMPLETED), and any other action
than the three is rejected; but CANCEL unconditionally sets the status to
CANCELLED from any state, including the terminal COMPLETED and NO_SHOW. -/
theorem statusPost_transitions
    (surcharge : ServiceType → Option Int → Option Int → Int → Int)
    (nerdReward : ServiceType → Int) (now : Int) (b : Booking) (action : Str)
    (b' : Booking)
    (h : statusPost surcharge nerdReward now b action = .ok b') :
    (action = "CHECK_IN".data →
      (b.status = .PENDING ∨ b.status = .CONFIRMED) ∧ b'.status = .IN_PROGRESS) ∧
    (action = "CHECK_OUT".data → b.status = .IN_PROGRESS ∧ b'.status = .COMPLETED) ∧
    (action = "CANCEL".data → b'.status = .CANCELLED) ∧
    (action = "CHECK_IN".data ∨ action = "CHECK_OUT".data ∨ action = "CANCEL".data) := by
  by_cases h1 : action = "CHECK_IN".data
  · rw [statusPost, if_pos h1] at h
    by_cases h2 : b.status ≠ .PENDING ∧ b.status ≠ .CONFIRMED
    · rw [if_pos h2] at h
      exact Except.noConfusion h
    · rw [if_neg h2] at h
      simp only [Except.ok.injEq] at h
      rw [not_and_or, not_not, not_not] at h2
      exact ⟨fun _ => ⟨h2, by rw [← h]⟩,
        fun hco => absurd (h1.symm.trans hco) (by decide),
        fun hca => absurd (h1.symm.trans hca) (by decide), Or.inl h1⟩
  · rw [statusPost, if_neg h1] at h
    by_cases h3 : action = "CHECK_OUT".data
    · rw [if_pos h3] at h
      by_cases h4 : b.status ≠ .IN_PROGRESS
      · rw [if_pos h4] at h
        exact Except.noConfusion h
      · rw [if_neg h4] at h
        simp only [Except.ok.injEq] at h
        rw [not_not] at h4
        exact ⟨fun hci => absurd (h3.symm.trans hci) (by decide),
          fun _ => ⟨h4, by rw [← h]⟩,
          fun hca => absurd (h3.symm.trans hca) (by decide), Or.inr (Or.inl h3)⟩
    · rw [if_neg h3] at h
      by_cases h5 : action = "CANCEL".data
      · rw [if_pos h5] at h
        simp only [Except.ok.injEq] at h
        exact ⟨fun hci => absurd (h5.symm.trans hci) (by decide),
          fun hco => absurd (h5.symm.trans hco) (by decide),
          fun _ => by rw [← h], Or.inr (Or.inr h5)⟩
      · rw [if_neg h5] at h
        exact Except.noConfusion h

/-- Witness for the amended C2: checking in a PENDING booking. -/
theorem statusPost_transitions_witness :
    (pendingBooking.status = .PENDING ∨ pendingBooking.status = .CONFIRMED) ∧
      ({ pendingBooking with
          status := .IN_PROGRESS, actualStartTime := some 0,
          nerdCoinIssued := 0, nerdCoinIssuedAt := none } : Booking).status =
        .IN_PROGRESS :=
  (statusPost_transitions (fun _ _ _ _ => 0) (fun _ => 0) 0
    pendingBooking "CHECK_IN".data
    { pendingBooking with
        status := .IN_PROGRESS, actualStartTime := some 0,
        nerdCoinIssued := 0, nerdCoinIssuedAt := none } rfl).1 rfl

/-- C3: checking out an IN_PROGRESS booking at time `now` sets the status
to COMPLETED, sets `actualAmount = estimatedAmount + surcharge(serviceType,
now − scheduledStart, scheduled duration, guests)`, and deducts the deposit
from `remainingAmount` exactly when `depositStatus` is PAID_ONLINE or
PAID_CASH. -/
theorem statusPost_checkout
    (surcharge : ServiceType → Option Int → Option Int → Int → Int)
    (nerdReward : ServiceType → Int) (now : Int) (b : Booking) (vs ve : Nat)
    (hst : b.status = .IN_PROGRESS)
    (hvs : parseTimeToMinutes b.startTime = some vs)
    (hve : parseTimeToMinutes b.endTime = some ve) :
    statusPost surcharge nerdReward now b "CHECK_OUT".data =
      .ok { b with
        status := .COMPLETED,
        actualEndTime := some now,
        actualAmount := some (b.estimatedAmount +
          surcharge (roomTypeToServiceType b.roomType)
            (some (now - (b.date + (vs : Int))))
            (some ((ve : Int) - (vs : Int))) b.guests),
        remainingAmount := some (b.estimatedAmount +
          surcharge (roomTypeToServiceType b.roomType)
            (some (now - (b.date + (vs : Int))))
            (some ((ve : Int) - (vs : Int))) b.guests -
          (if b.depositStatus = .PAID_ONLINE ∨ b.depositStatus = .PAID_CASH
            then b.depositAmount else 0)) } := by
  rw [statusPost, if_neg (by decide), if_pos rfl, if_neg (by simp [hst])]
  have hsched : jsSub (getBookingDateTime b.date b.endTime)
      (getBookingDateTime b.date b.startTime) = some ((ve : Int) - (vs : Int)) := by
    rw [getBookingDateTime, getBookingDateTime, hvs, hve, Option.map_some',
      Option.map_some', jsSub]
    congr 1
    ring
  have hact : jsSub (some now) (getBookingDateTime b.date b.startTime) =
      some (now - (b.date + (vs : Int))) := by
    rw [getBookingDateTime, hvs, Option.map_some', jsSub]
  simp only [hsched, hact]

/-- Witness for C3: a concrete IN_PROGRESS booking (09:00–10:00, estimated
100, deposit 50 paid in cash) checked out at minute 620 with a constant
surcharge of 5. -/
theorem statusPost_checkout_witness :
    inProgressBooking.status = .IN_PROGRESS ∧
    parseTimeToMinutes inProgressBooking.startTime = some 540 ∧
    statusPost (fun _ _ _ _ => 5) (fun _ => 0) 620 inProgressBooking "CHECK_OUT".data =
      .ok { inProgressBooking with
        status := .COMPLETED, actualEndTime := some 620,
        actualAmount := some 105, remainingAmount := some 55 } :=
  ⟨rfl, by decide, by
    have hmain := statusPost_checkout (fun _ _ _ _ => 5) (fun _ => 0) 620
      inProgressBooking 540 600 rfl (by decide) (by decide)
    rw [hmain]
    rfl⟩

/-! ## The set of booking statuses handled by the displays -/

/-- `statusLabels` from the admin calendar view (`src/unnamed/part_001`):
the display label for each booking status, keyed by the raw status
string. -/
def statusLabels : List (Str × Str) :=
  [("PENDING".data, "Chờ cọc".data),
   ("CONFIRMED".data, "Đã xác nhận".data),
   ("IN_PROGRESS".data, "Đang sử dụng".data),
   ("COMPLETED".data, "Hoàn thành".data),
   ("CANCELLED".data, "Đã hủy".data),
   ("NO_SHOW".data, "Không đến".data)]

/-- The distinct booking-status keys appearing in the displays. -/
def handledStatuses : List Str := statusLabels.map Prod.fst

/-- Serialisation of the status enum as stored in the database. -/
def statusKey : BookingStatus → Str
  | .PENDING => "PENDING".data
  | .CONFIRMED => "CONFIRMED".data
  | .IN_PROGRESS => "IN_PROGRESS".data
  | .COMPLETED => "COMPLETED".data
  | .CANCELLED => "CANCELLED".data
  | .NO_SHOW => "NO_SHOW".data

/-- C5 counterexample: the set of booking statuses handled by the
program's displays does not have cardinality five. -/
theorem handledStatuses_card_ne_five : ¬ handledStatuses.dedup.length = 5 := by
  decide

/-- C5 amended: the status machine has exactly six states — the displays
handle six distinct status values (PENDING, CONFIRMED, IN_PROGRESS,
COMPLETED, CANCELLED, NO_SHOW), and every status of the enum used by the
status-route logic appears among them. -/
theorem handledStatuses_card_six :
    handledStatuses.dedup.length = 6 ∧ handledStatuses.Nodup ∧
      ∀ s : BookingStatus, statusKey s ∈ handledStatuses := by
  refine ⟨by decide, by decide, fun s => ?_⟩
  cases s <;> decide

/-! ## Staff route permissions (`src/lib/staffPermissions.ts`) -/

/-- The keys of `DEFAULT_STAFF_PERMISSIONS`. -/
inductive PermKey where
  | canViewDashboard | canViewBookings | canCreateBookings | canEditBookings
  | canDeleteBookings | canCheckIn | canCheckOut | canViewCustomers
  | canViewRooms | canViewServices | canViewLocations | canViewPosts
  | canViewNerdCoin | canViewReports | canViewSettings | canViewStaff
  | canViewAuditLog | canViewEmailTemplates
deriving DecidableEq

/-- `PERMISSION_ROUTE_MAP`, in the object's insertion order (which is the
order `Object.keys` iterates). -/
def PERMISSION_ROUTE_MAP : List (Str × PermKey) :=
  [("/admin".data, .canViewDashboard),
   ("/admin/bookings".data, .canViewBookings),
   ("/admin/customers".data, .canViewCustomers),
   ("/admin/rooms".data, .canViewRooms),
   ("/admin/services".data, .canViewServices),
   ("/admin/combos".data, .canViewServices),
   ("/admin/locations".data, .canViewLocations),
   ("/admin/posts".data, .canViewPosts),
   ("/admin/gallery".data, .canViewPosts),
   ("/admin/media".data, .canViewPosts),
   ("/admin/content".data, .canViewPosts),
   ("/admin/nerdcoin".data, .canViewNerdCoin),
   ("/admin/reports".data, .canViewReports),
   ("/admin/settings".data, .canViewSettings),
   ("/admin/permissions".data, .canViewSettings),
   ("/admin/staff".data, .canViewStaff),
   ("/admin/audit-log".data, .canViewAuditLog),
   ("/admin/email-templates".data, .canViewEmailTemplates)]

/-- `isRouteAllowedForStaff`: resolve the pathname against the first map
entry whose key equals the pathname or is a prefix of it followed by `/`;
unknown routes are blocked.  A permission object is a total assignment of
booleans to the permission keys (`permissions[key] ?? false` never falls
through to `false` on a total object). -/
def isRouteAllowedForStaff (pathname : Str) (permissions : PermKey → Bool) : Bool :=
  match PERMISSION_ROUTE_MAP.find? fun entry =>
      pathname == entry.1 || (entry.1 ++ "/".data).isPrefixOf pathname with
  | none => false
  | some entry => permissions entry.2

theorem isPrefixOf_self_append (l r : Str) : l.isPrefixOf (l ++ r) = true := by
  induction l with
  | nil => simp [List.isPrefixOf]
  | cons a as ih => simp [List.isPrefixOf, ih]

/-- C9: `/admin` is the first entry of the map and matches every pathname
of the form `/admin/<anything>` via the prefix rule, so every such route is
governed by `canViewDashboard` alone (in particular `/admin/bookings` is
not governed by `canViewBookings`); pathnames matching no entry are
denied. -/
theorem isRouteAllowedForStaff_spec :
    (∀ (rest : Str) (permissions : PermKey → Bool),
      isRouteAllowedForStaff ("/admin/".data ++ rest) permissions =
        permissions .canViewDashboard) ∧
    (∀ (pathname : Str) (permissions : PermKey → Bool),
      (∀ entry ∈ PERMISSION_ROUTE_MAP,
        pathname ≠ entry.1 ∧ (entry.1 ++ "/".data).isPrefixOf pathname = false) →
      isRouteAllowedForStaff pathname permissions = false) := by
  constructor
  · intro rest permissions
    rw [isRouteAllowedForStaff, PERMISSION_ROUTE_MAP, List.find?_cons_of_pos]
    have : ("/admin".data ++ "/".data : Str) = "/admin/".data := by decide
    rw [this]
    exact Bool.or_eq_true_iff.mpr (Or.inr (isPrefixOf_self_append "/admin/".data rest))
  · intro pathname permissions hnone
    rw [isRouteAllowedForStaff, List.find?_eq_none.mpr]
    intro entry hentry
    obtain ⟨hne, hpre⟩ := hnone entry hentry
    simp [hpre, hne]

/-- Witness for C9: with all permissions granted except the dashboard,
`/admin/bookings` is still denied (governed by `canViewDashboard`), and the
unknown route `/profile` is denied. -/
theorem isRouteAllowedForStaff_spec_witness :
    isRouteAllowedForStaff "/admin/bookings".data
        (fun k => !(k == PermKey.canViewDashboard)) = false ∧
      isRouteAllowedForStaff "/profile".data (fun _ => true) = false := by
  constructor
  · have h := isRouteAllowedForStaff_spec.1 "bookings".data
      fun k => !(k == PermKey.canViewDashboard)
    have heq : ("/admin/".data ++ "bookings".data : Str) = "/admin/bookings".data := by
      decide
    rw [heq] at h
    rw [h]
    decide
  · exact isRouteAllowedForStaff_spec.2 "/profile".data (fun _ => true) (by decide)

/-! ## The customer booking wizard (`BookingWizardV2.tsx`) -/

/-- A room row (also used by the create route): id, type, capacity and the
location it belongs to; display-only fields are omitted. -/
structure Room where
  id : Str
  type : RoomType
  capacity : Int
  locationId : Str
deriving DecidableEq

/-- A service as selected in the wizard; only its identity and type are
relevant. -/
structure Service where
  id : Str
  type : ServiceType
deriving DecidableEq

/-- The wizard's component state: `currentStep` plus the three
selections. -/
structure WizardState where
  currentStep : Nat
  selectedLocation : Option Str
  selectedService : Option Service
  selectedRoom : Option Room
deriving DecidableEq

/-- `useState` initial values: step 1, nothing selected. -/
def initialWizardState : WizardState :=
  { currentStep := 1, selectedLocation := none, selectedService := none,
    selectedRoom := none }

/-- `handleLocationSelect`. -/
def handleLocationSelect (s : WizardState) (id : Str) : WizardState :=
  { s with selectedLocation := some id, selectedRoom := none, currentStep := 2 }

/-- `handleServiceSelect`. -/
def handleServiceSelect (s : WizardState) (service : Service) : WizardState :=
  { s with selectedService := some service, selectedRoom := none, currentStep := 3 }

/-- `handleRoomSelect`. -/
def handleRoomSelect (s : WizardState) (room : Room) : WizardState :=
  { s with selectedRoom := some room, currentStep := 4 }

/-- `goBack`. -/
def goBack (s : WizardState) : WizardState :=
  if s.currentStep > 1 then { s with currentStep := s.currentStep - 1 } else s

/-- One UI event of the wizard.  Each selector fires only on the step where
the component renders it (`currentStep === k && ...` in the JSX): the
location selector on step 1, the service selector on step 2, the room
selector on step 3; the back button renders on steps 2–4. -/
inductive WizardEvent : WizardState → WizardState → Prop where
  | selectLocation (s : WizardState) (id : Str) (h : s.currentStep = 1) :
      WizardEvent s (handleLocationSelect s id)
  | selectService (s : WizardState) (service : Service) (h : s.currentStep = 2) :
      WizardEvent s (handleServiceSelect s service)
  | selectRoom (s : WizardState) (room : Room) (h : s.currentStep = 3) :
      WizardEvent s (handleRoomSelect s room)
  | back (s : WizardState) (h : 2 ≤ s.currentStep) :
      WizardEvent s (goBack s)

/-- States reachable from the initial wizard state by UI events. -/
inductive WizardReachable : WizardState → Prop where
  | init : WizardReachable initialWizardState
  | step {s t : WizardState} : WizardReachable s → WizardEvent s t →
      WizardReachable t

/-- The ordering invariant of the wizard: each later step presupposes the
selections of the earlier ones. -/
def wizardInvariant (s : WizardState) : Prop :=
  1 ≤ s.currentStep ∧ s.currentStep ≤ 4 ∧
    (2 ≤ s.currentStep → s.selectedLocation.isSome = true) ∧
    (3 ≤ s.currentStep → s.selectedService.isSome = true) ∧
    (s.currentStep = 4 → s.selectedLocation.isSome = true ∧
      s.selectedService.isSome = true ∧ s.selectedRoom.isSome = true)

/-- C6: the wizard visits location → service → room → booking form in
order.  Selecting a location moves step 1 to step 2, a service moves
step 2 to step 3, a room moves step 3 to step 4; in every reachable state
step ≥ 2 implies a location is selected, step ≥ 3 also a service, and the
booking form (step 4) only with all three selections; no event advances
the step by more than one. -/
theorem wizard_step_order :
    (∀ s : WizardState, WizardReachable s → wizardInvariant s) ∧
    (∀ s t : WizardState, WizardEvent s t → t.currentStep ≤ s.currentStep + 1) ∧
    (∀ (s : WizardState) (id : Str), s.currentStep = 1 →
      (handleLocationSelect s id).currentStep = 2) ∧
    (∀ (s : WizardState) (service : Service), s.currentStep = 2 →
      (handleServiceSelect s service).currentStep = 3) ∧
    (∀ (s : WizardState) (room : Room), s.currentStep = 3 →
      (handleRoomSelect s room).currentStep = 4) := by
  refine ⟨?_, ?_, fun s id _ => rfl, fun s svc _ => rfl, fun s room _ => rfl⟩
  · intro s h
    induction h with
    | init => simp [wizardInvariant, initialWizardState]
    | step hr hstep ih =>
      cases hstep with
      | selectLocation id h1 =>
        simp [wizardInvariant, handleLocationSelect]
      | selectService service h1 =>
        obtain ⟨-, -, hloc, -, -⟩ := ih
        have hl := hloc (by omega)
        simp [wizardInvariant, handleServiceSelect, hl]
      | selectRoom room h1 =>
        obtain ⟨-, -, hloc, hsvc, -⟩ := ih
        have hl := hloc (by omega)
        have hs := hsvc (by omega)
        simp [wizardInvariant, handleRoomSelect, hl, hs]
      | back h1 =>
        obtain ⟨hge, hle, hloc, hsvc, -⟩ := ih
        rw [goBack, if_pos (by omega)]
        refine ⟨by simp; omega, by simp; omega, fun h2 => ?_, fun h3 => ?_,
          fun h4 => ?_⟩
        · exact hloc (by simp at h2; omega)
        · exact hsvc (by simp at h3; omega)
        · exact absurd h4 (by simp; omega)
  · intro s t hstep
    cases hstep with
    | selectLocation id h1 => simp [handleLocationSelect, h1]
    | selectService service h1 => simp [handleServiceSelect, h1]
    | selectRoom room h1 => simp [handleRoomSelect, h1]
    | back h1 => rw [goBack, if_pos (by omega)]; simp; omega

/-- Witness for C6: the invariant holds at the state reached by selecting
a location from the initial state. -/
theorem wizard_step_order_witness :
    wizardInvariant (handleLocationSelect initialWizardState "loc1".data) :=
  wizard_step_order.1 (handleLocationSelect initialWizardState "loc1".data)
    (WizardReachable.step WizardReachable.init
      (WizardEvent.selectLocation initialWizardState "loc1".data rfl))

/-! ## The booking-create route (`src/app/api/booking/create/route.ts`) -/

/-- `OPERATING_HOURS.open` from booking-utils. -/
def OPERATING_HOURS_open : Str := "08:00".data

/-- `OPERATING_HOURS.close` from booking-utils. -/
def OPERATING_HOURS_close : Str := "22:00".data

/-- The request body of POST `/api/booking/create`.  A missing string
field is modelled as the empty string — the route only tests those fields
for falsiness, and `''` is the falsy string; `guests` is assumed present
(optional fields `customerEmail` and `note` play no role). -/
structure CreateRequest where
  roomId : Str
  locationId : Str
  date : Str
  startTime : Str
  endTime : Str
  guests : Int
  customerName : Str
  customerPhone : Str
deriving DecidableEq

/-- The Vietnamese phone validation `/^0\d{9}$/`. -/
def phoneValid (phone : Str) : Bool :=
  match phone with
  | c :: rest => c == '0' && rest.length == 9 && rest.all isDigit
  | [] => false

/-- JS `<` on possibly-NaN naturals: a comparison with NaN is false. -/
def jsLtN (a b : Option Nat) : Bool :=
  match a, b with
  | some x, some y => decide (x < y)
  | _, _ => false

/-- JS `<` on possibly-NaN integers: a comparison with NaN is false. -/
def jsLtI (a b : Option Int) : Bool :=
  match a, b with
  | some x, some y => decide (x < y)
  | _, _ => false

/-- JS `<=` on possibly-NaN integers: a comparison with NaN is false. -/
def jsLeI (a b : Option Int) : Bool :=
  match a, b with
  | some x, some y => decide (x ≤ y)
  | _, _ => false

/-- The payment row the route creates alongside the booking (its method is
always `'VNPAY'`). -/
structure PaymentRow where
  amount : Int
  status : PaymentStatus
deriving DecidableEq

/-- Outcome of POST `/api/booking/create`: an error response with its HTTP
status, or the created booking row with its payment row. -/
inductive CreateResult where
  | error (status : Nat)
  | created (booking : Booking) (payment : PaymentRow)
deriving DecidableEq

/-- POST `/api/booking/create`.  JS `Date` parsing and the pricing library
(`src/lib/pricing.ts`, absent from this source tree) are parameters:
`parseDate` returns the parsed day in minutes (`none` models an Invalid
Date), `price` is `calculateBookingPrice` (its duration argument is the
possibly-NaN `durationMinutes`), `deposit` is `calculateDeposit`.  The
rooms and bookings tables and the clock are explicit arguments.  Booking
code generation, the session lookup, the VNPay URL and the notification
email do not affect the created rows and are omitted. -/
def createPost (parseDate : Str → Option Int)
    (price : ServiceType → Option Int → Int → Int) (deposit : Int → Int)
    (rooms : List Room) (db : List Booking) (now : Int)
    (req : CreateRequest) : CreateResult :=
  if req.roomId.isEmpty || req.locationId.isEmpty || req.date.isEmpty ||
      req.startTime.isEmpty || req.endTime.isEmpty then .error 400
  else if req.customerName.isEmpty || req.customerPhone.isEmpty then .error 400
  else if !phoneValid req.customerPhone then .error 400
  else
    match parseDate req.date with
    | none => .error 400
    | some bookingDate =>
      match rooms.find? fun room => room.id == req.roomId with
      | none => .error 404
      | some room =>
        if room.locationId ≠ req.locationId then .error 400
        else if req.guests > room.capacity then .error 400
        else if jsLtI (getBookingDateTime bookingDate req.startTime) (some now) then
          .error 400
        else if jsLtN (parseTimeToMinutes req.startTime)
              (parseTimeToMinutes OPERATING_HOURS_open) ||
            jsLtN (parseTimeToMinutes OPERATING_HOURS_close)
              (parseTimeToMinutes req.endTime) then .error 400
        else if jsLeI (calculateDuration req.startTime req.endTime) (some 0) then
          .error 400
        else if jsLtI (calculateDuration req.startTime req.endTime) (some 60) then
          .error 400
        else if !isSlotAvailable db req.roomId bookingDate req.startTime req.endTime then
          .error 409
        else
          let serviceType := roomTypeToServiceType room.type
          let durationMinutes := calculateDuration req.startTime req.endTime
          let estimatedAmount := price serviceType durationMinutes req.guests
          let depositAmount := deposit estimatedAmount
          .created
            { roomId := req.roomId, locationId := req.locationId,
              date := bookingDate, startTime := req.startTime,
              endTime := req.endTime, status := .PENDING, guests := req.guests,
              roomType := room.type, actualStartTime := none,
              actualEndTime := none, estimatedAmount := estimatedAmount,
              depositAmount := depositAmount, depositStatus := .PENDING,
              actualAmount := none, remainingAmount := none,
              nerdCoinIssued := 0, nerdCoinIssuedAt := none }
            { amount := depositAmount, status := .PENDING }

/-- C4: for a create request that passes input validation (required
fields, phone format, date parse, room exists and belongs to the location,
capacity, not in the past, operating hours, duration ≥ 60), the route
returns 409 and creates nothing iff `isSlotAvailable` reports a conflict,
and otherwise creates exactly one booking with status PENDING,
depositStatus PENDING, and a payment row whose amount is the computed
deposit and whose status is PENDING. -/
theorem createPost_conflict_or_pending
    (parseDate : Str → Option Int)
    (price : ServiceType → Option Int → Int → Int) (deposit : Int → Int)
    (rooms : List Room) (db : List Booking) (now : Int)
    (req : CreateRequest) (bookingDate : Int) (room : Room)
    (hfields : req.roomId.isEmpty = false ∧ req.locationId.isEmpty = false ∧
      req.date.isEmpty = false ∧ req.startTime.isEmpty = false ∧
      req.endTime.isEmpty = false)
    (hcust : req.customerName.isEmpty = false ∧ req.customerPhone.isEmpty = false)
    (hphone : phoneValid req.customerPhone = true)
    (hdate : parseDate req.date = some bookingDate)
    (hroom : rooms.find? (fun r => r.id == req.roomId) = some room)
    (hloc : room.locationId = req.locationId)
    (hcap : ¬ req.guests > room.capacity)
    (hpast : jsLtI (getBookingDateTime bookingDate req.startTime) (some now) = false)
    (hhours : (jsLtN (parseTimeToMinutes req.startTime)
        (parseTimeToMinutes OPERATING_HOURS_open) ||
      jsLtN (parseTimeToMinutes OPERATING_HOURS_close)
        (parseTimeToMinutes req.endTime)) = false)
    (hdur0 : jsLeI (calculateDuration req.startTime req.endTime) (some 0) = false)
    (hdur60 : jsLtI (calculateDuration req.startTime req.endTime) (some 60) = false) :
    (createPost parseDate price deposit rooms db now req = .error 409 ↔
      isSlotAvailable db req.roomId bookingDate req.startTime req.endTime = false) ∧
    (isSlotAvailable db req.roomId bookingDate req.startTime req.endTime = true →
      createPost parseDate price deposit rooms db now req =
        .created
          { roomId := req.roomId, locationId := req.locationId,
            date := bookingDate, startTime := req.startTime,
            endTime := req.endTime, status := .PENDING, guests := req.guests,
            roomType := room.type, actualStartTime := none,
            actualEndTime := none,
            estimatedAmount := price (roomTypeToServiceType room.type)
              (calculateDuration req.startTime req.endTime) req.guests,
            depositAmount := deposit (price (roomTypeToServiceType room.type)
              (calculateDuration req.startTime req.endTime) req.guests),
            depositStatus := .PENDING, actualAmount := none,
            remainingAmount := none, nerdCoinIssued := 0,
            nerdCoinIssuedAt := none }
          { amount := deposit (price (roomTypeToServiceType room.type)
              (calculateDuration req.startTime req.endTime) req.guests),
            status := .PENDING }) := by
  obtain ⟨hf1, hf2, hf3, hf4, hf5⟩ := hfields
  obtain ⟨hc1, hc2⟩ := hcust
  have hstep : createPost parseDate price deposit rooms db now req =
      if !isSlotAvailable db req.roomId bookingDate req.startTime req.endTime then
        .error 409
      else
        .created
          { roomId := req.roomId, locationId := req.locationId,
            date := bookingDate, startTime := req.startTime,
            endTime := req.endTime, status := .PENDING, guests := req.guests,
            roomType := room.type, actualStartTime := none,
            actualEndTime := none,
            estimatedAmount := price (roomTypeToServiceType room.type)
              (calculateDuration req.startTime req.endTime) req.guests,
            depositAmount := deposit (price (roomTypeToServiceType room.type)
              (calculateDuration req.startTime req.endTime) req.guests),
            depositStatus := .PENDING, actualAmount := none,
            remainingAmount := none, nerdCoinIssued := 0,
            nerdCoinIssuedAt := none }
          { amount := deposit (price (roomTypeToServiceType room.type)
              (calculateDuration req.startTime req.endTime) req.guests),
            status := .PENDING } := by
    rw [createPost]
    simp [hf1, hf2, hf3, hf4, hf5, hc1, hc2, hphone, hdate, hroom, hloc, hcap,
      hpast, hhours, hdur0, hdur60]
  constructor
  · rw [hstep]
    cases havail : isSlotAvailable db req.roomId bookingDate req.startTime req.endTime
    · simp [havail]
    · simp [havail]
  · intro havail
    rw [hstep, havail]
    rfl

/-- A concrete room for the C4 and C7 witnesses. -/
def sampleRoom : Room :=
  { id := "r1".data, type := .POD_MONO, capacity := 4, locationId := "l1".data }

/-- A concrete valid create request for the C4 witness. -/
def sampleRequest : CreateRequest :=
  { roomId := "r1".data, locationId := "l1".data, date := "2025-12-15".data,
    startTime := "09:00".data, endTime := "10:00".data, guests := 1,
    customerName := "An".data, customerPhone := "0901234567".data }

/-- Witness for C4: on an empty table the sample request is created with
status PENDING, depositStatus PENDING and a PENDING payment over the
computed deposit. -/
theorem createPost_conflict_or_pending_witness :
    isSlotAvailable [] sampleRequest.roomId 0 sampleRequest.startTime
        sampleRequest.endTime = true ∧
      createPost (fun _ => some 0) (fun _ _ _ => 100) (fun _ => 50) [sampleRoom] []
          0 sampleRequest =
        .created
          { roomId := sampleRequest.roomId, locationId := sampleRequest.locationId,
            date := 0, startTime := sampleRequest.startTime,
            endTime := sampleRequest.endTime, status := .PENDING,
            guests := sampleRequest.guests, roomType := sampleRoom.type,
            actualStartTime := none, actualEndTime := none,
            estimatedAmount := 100, depositAmount := 50,
            depositStatus := .PENDING, actualAmount := none,
            remainingAmount := none, nerdCoinIssued := 0,
            nerdCoinIssuedAt := none }
          { amount := 50, status := .PENDING } :=
  ⟨by decide, by
    have h := (createPost_conflict_or_pending (fun _ => some 0)
      (fun _ _ _ => 100) (fun _ => 50) [sampleRoom] [] 0 sampleRequest 0 sampleRoom
      (by decide) (by decide) (by decide) rfl (by decide) rfl (by decide)
      (by decide) (by decide) (by decide) (by decide)).2 (by decide)
    rw [h]⟩

/-! ## The race between availability check and insert (C7) -/

/-- A create request reduced to the fields the availability check and the
insert use. -/
structure SlotRequest where
  roomId : Str
  date : Int
  startTime : Str
  endTime : Str
deriving DecidableEq

/-- The booking row the create route inserts for a request: status
PENDING, not cancelled, on the request's room, date and times (the
remaining fields do not affect availability). -/
def mkBooking (r : SlotRequest) : Booking :=
  { roomId := r.roomId, locationId := "l1".data, date := r.date,
    startTime := r.startTime, endTime := r.endTime, status := .PENDING,
    guests := 1, roomType := .POD_MONO, actualStartTime := none,
    actualEndTime := none, estimatedAmount := 0, depositAmount := 0,
    depositStatus := .PENDING, actualAmount := none, remainingAmount := none,
    nerdCoinIssued := 0, nerdCoinIssuedAt := none }

/-- Progress of one in-flight create request: before its availability
check, after the check (with its result), or finished (created or not). -/
inductive ReqPhase where
  | start
  | checked (passed : Bool)
  | done (created : Bool)
deriving DecidableEq

/-- The shared database plus the two requests' phases. -/
structure RaceState where
  db : List Booking
  r1 : ReqPhase
  r2 : ReqPhase
deriving DecidableEq

/-- One database operation of a request, as the create route performs
them: first the `isSlotAvailable` read, then — only if it passed — the
`prisma.booking.create` insert.  These are two separate operations with no
transaction or lock spanning them. -/
def reqStep (req : SlotRequest) (phase : ReqPhase) (db : List Booking) :
    ReqPhase × List Booking :=
  match phase with
  | .start =>
    (.checked (isSlotAvailable db req.roomId req.date req.startTime req.endTime), db)
  | .checked true => (.done true, db ++ [mkBooking req])
  | .checked false => (.done false, db)
  | .done c => (.done c, db)

/-- Run one scheduler turn: `true` steps request 1, `false` steps
request 2. -/
def raceStep (q1 q2 : SlotRequest) (turn : Bool) (s : RaceState) : RaceState :=
  if turn then
    let next := reqStep q1 s.r1 s.db
    { s with r1 := next.1, db := next.2 }
  else
    let next := reqStep q2 s.r2 s.db
    { s with r2 := next.1, db := next.2 }

/-- Run a whole interleaving. -/
def runSchedule (q1 q2 : SlotRequest) : List Bool → RaceState → RaceState
  | [], s => s
  | t :: ts, s => runSchedule q1 q2 ts (raceStep q1 q2 t s)

/-- C7: with no concurrency control between the availability check and the
insert, the interleaving check₁, check₂, insert₁, insert₂ lets two
overlapping requests for the same room and date both pass
`isSlotAvailable` and both create their bookings. -/
theorem createPost_race (db : List Booking) (q1 q2 : SlotRequest)
    (hroom : q1.roomId = q2.roomId) (hdate : q1.date = q2.date)
    (hoverlap : lexLt q1.startTime q2.endTime = true ∧
      lexLt q2.startTime q1.endTime = true)
    (h1 : isSlotAvailable db q1.roomId q1.date q1.startTime q1.endTime = true)
    (h2 : isSlotAvailable db q2.roomId q2.date q2.startTime q2.endTime = true) :
    (runSchedule q1 q2 [true, false, true, false] ⟨db, .start, .start⟩).r1 =
        .done true ∧
      (runSchedule q1 q2 [true, false, true, false] ⟨db, .start, .start⟩).r2 =
        .done true ∧
      mkBooking q1 ∈ (runSchedule q1 q2 [true, false, true, false]
        ⟨db, .start, .start⟩).db ∧
      mkBooking q2 ∈ (runSchedule q1 q2 [true, false, true, false]
        ⟨db, .start, .start⟩).db := by
  have hrun : runSchedule q1 q2 [true, false, true, false] ⟨db, .start, .start⟩ =
      ⟨db ++ [mkBooking q1] ++ [mkBooking q2], .done true, .done true⟩ := by
    simp [runSchedule, raceStep, reqStep, h1, h2]
  rw [hrun]
  refine ⟨rfl, rfl, ?_, ?_⟩
  · simp
  · simp

/-- A second overlapping request for the C7 witness. -/
def sampleRequest2 : SlotRequest :=
  { roomId := "r1".data, date := 0, startTime := "09:30".data,
    endTime := "10:30".data }

/-- The first request of the C7 witness. -/
def sampleRequest1 : SlotRequest :=
  { roomId := "r1".data, date := 0, startTime := "09:00".data,
    endTime := "10:00".data }

/-- Witness for C7: on an empty table, two overlapping 09:00–10:00 /
09:30–10:30 requests for the same room both get created under the racy
interleaving. -/
theorem createPost_race_witness :
    (runSchedule sampleRequest1 sampleRequest2 [true, false, true, false]
        ⟨[], .start, .start⟩).r1 = .done true ∧
      (runSchedule sampleRequest1 sampleRequest2 [true, false, true, false]
        ⟨[], .start, .start⟩).r2 = .done true ∧
      mkBooking sampleRequest1 ∈ (runSchedule sampleRequest1 sampleRequest2
        [true, false, true, false] ⟨[], .start, .start⟩).db ∧
      mkBooking sampleRequest2 ∈ (runSchedule sampleRequest1 sampleRequest2
        [true, false, true, false] ⟨[], .start, .start⟩).db :=
  createPost_race [] sampleRequest1 sampleRequest2 rfl rfl
    ⟨by decide, by decide⟩ (by decide) (by decide)

end Nerd
